import Mathlib

/-!
Verification development for the self-node-remediation agent/reconciler.

Durations and timestamps are measured in nanoseconds (Go `time.Duration`
units) and represented as `Nat`.

The repository snapshot under verification contains the CRD type
declarations (`api/v1alpha1/selfnoderemediation_types.go`), the controller
test suite (`controllers/tests/controller/suite_test.go`) and the e2e test;
the bodies of the core packages (`pkg/apicheck`, `pkg/peers`,
`pkg/reboot`, `controllers`) are not part of the snapshot, so their
behaviour is modelled from the specification and from the authoritative
doc comments in the type declarations, as marked on each definition.
-/

namespace SelfNodeRemediation

/-- One nanosecond-denominated second, i.e. Go `time.Second`. -/
def second : Nat := 1000000000

/-! ## Remediation strategy constants

From `src/api/v1alpha1/selfnoderemediation_types.go` lines 23-25:
`RemediationStrategyType` is a string type with two declared constants. -/

/-- Go constant `ResourceDeletionRemediationStrategy`. -/
def ResourceDeletionRemediationStrategy : String := "ResourceDeletion"

/-- Go constant `DeprecatedNodeDeletionRemediationStrategy`. -/
def DeprecatedNodeDeletionRemediationStrategy : String := "NodeDeletion"

/-- Modelled from the source marker `+kubebuilder:default:="ResourceDeletion"`
on `SelfNodeRemediationSpec.RemediationStrategy`
(`src/api/v1alpha1/selfnoderemediation_types.go` line 41): a spec created
without an explicit strategy (the field absent / omitted, as the e2e helper
`createPPR` does) is defaulted to `ResourceDeletion`. -/
def defaultedRemediationStrategy : Option String → String
  | none => ResourceDeletionRemediationStrategy
  | some s => s

/-! ## SafeTimeCalculator -/

/-- Configuration consumed by the safe-time calculator (spec section 4.3). -/
structure SafeTimeConfig where
  checkInterval : Nat
  maxErrorsThreshold : Nat
  watchdogTimeout : Nat
  apiServerTimeout : Nat
  safetyMargin : Nat
  deriving Repr, DecidableEq

/-- Modelled from the spec: the body of `SafeTimeCalculator` is not in the
snapshot (only the mock in the test suite is); spec section 4.3 gives
`timeToAssumeRebooted = (maxErrorsThreshold * checkInterval) + watchdogTimeout + safetyMargin`. -/
def calcTimeToAssumeRebooted (c : SafeTimeConfig) : Nat :=
  c.maxErrorsThreshold * c.checkInterval + c.watchdogTimeout + c.safetyMargin

/-- From `src/controllers/tests/controller/suite_test.go` lines 115-117: the
suite computes the time to assume the node rebooted by successive additions,
with a hard-coded safety margin of `5 * time.Second`:
`timeToAssumeNodeRebooted := time.Duration(shared.MaxErrorThreshold) * shared.ApiCheckInterval`,
then `+= dummyDog.GetTimeout()`, then `+= 5 * time.Second`. -/
def suiteTestTimeToAssumeNodeRebooted (maxErrorThreshold apiCheckInterval watchdogTimeout : Nat) : Nat :=
  let t := maxErrorThreshold * apiCheckInterval
  let t := t + watchdogTimeout
  let t := t + 5 * second
  t

/-! ## PeerManager verdict aggregation -/

/-- In-memory health verdict (spec section 3, `HealthCheckResult`). -/
inductive HealthCheckResult where
  | Healthy
  | Unhealthy
  | ApiServerUnreachable
  deriving Repr, DecidableEq

/-- Per-peer answer in one quorum round (spec section 3, `PeerVerdict`
domain): a peer either confirms the requester healthy or unhealthy using
its own API-server access, fails to respond in time, or reports that it
cannot reach the API server itself. -/
inductive PeerResponse where
  | ConfirmsHealthy
  | ConfirmsUnhealthy
  | NoResponse
  | ApiServerUnreachableFromPeerToo
  deriving Repr, DecidableEq

/-- A peer counts as responding when it produced any answer before the
per-call deadline. -/
def PeerResponse.responded : PeerResponse → Bool
  | .NoResponse => false
  | _ => true

/-- Modelled from the spec: the body of `PeerManager.IsHealthy`
(`pkg/peers`) is not in the snapshot; spec section 4.2 gives the
aggregation, in priority order: any peer that reports the requester
unhealthy via its own working API access is authoritative and yields
`Unhealthy`; otherwise, if some peer responded and every responding peer
cannot itself reach the API server, the round yields
`ApiServerUnreachable`; otherwise (including total silence) the round is
indeterminate and defaults to `Healthy`. -/
def peersIsHealthy (responses : List PeerResponse) : HealthCheckResult :=
  if PeerResponse.ConfirmsUnhealthy ∈ responses then
    .Unhealthy
  else if (∃ r ∈ responses, r.responded = true) ∧
      (∀ r ∈ responses, r.responded = true → r = .ApiServerUnreachableFromPeerToo) then
    .ApiServerUnreachable
  else
    .Healthy

/-! ## ApiConnectivityCheck state machine -/

/-- Phases of the periodic connectivity-check loop (spec section 4.4). -/
inductive ApiCheckPhase where
  | Checking
  | Escalated
  | Fencing
  deriving Repr, DecidableEq

/-- Observable state of the loop: its phase, the in-memory `ErrorCount`,
plus instrumentation counters recording how often `PeerManager.IsHealthy`
was consulted and how often `Rebooter.Reboot()` was invoked. -/
structure ApiCheckState where
  phase : ApiCheckPhase
  errorCount : Nat
  peerQueries : Nat
  reboots : Nat
  deriving Repr, DecidableEq

/-- The loop starts in `Checking` with a zero error count and no reboot
engaged. -/
def ApiCheckState.initial : ApiCheckState :=
  { phase := .Checking, errorCount := 0, peerQueries := 0, reboots := 0 }

/-- Outcome of one bounded probe of the local API server. -/
inductive ProbeOutcome where
  | success
  | failure
  deriving Repr, DecidableEq

/-- Modelled from the spec: the body of `ApiConnectivityCheck`
(`pkg/apicheck`) is not in the snapshot; spec section 4.4 gives the
per-cycle transition rule. `verdict` is the answer `PeerManager.IsHealthy`
would return if consulted this cycle. A successful probe resets
`ErrorCount` to zero and returns to `Checking`; a failed probe increments
it; below the threshold the failure is tolerated with no escalation; at or
above the threshold the loop escalates and consults the peers, fencing
(invoking `Rebooter.Reboot()`) exactly when the verdict is `Unhealthy`, and
otherwise staying escalated without resetting the count. `Fencing` is
terminal for the process lifetime. -/
def apiCheckStep (threshold : Nat) (s : ApiCheckState) (probe : ProbeOutcome)
    (verdict : HealthCheckResult) : ApiCheckState :=
  match s.phase with
  | .Fencing => s
  | _ =>
    match probe with
    | .success => { s with phase := .Checking, errorCount := 0 }
    | .failure =>
      let ec := s.errorCount + 1
      if ec < threshold then
        { s with phase := .Checking, errorCount := ec }
      else
        match verdict with
        | .Unhealthy =>
          ⟨.Fencing, ec, s.peerQueries + 1, s.reboots + 1⟩
        | _ =>
          ⟨.Escalated, ec, s.peerQueries + 1, s.reboots⟩

/-- Run of the loop over a list of cycles, each cycle carrying the probe
outcome and the peer verdict that round would produce. -/
def apiCheckRun (threshold : Nat) (s : ApiCheckState) :
    List (ProbeOutcome × HealthCheckResult) → ApiCheckState
  | [] => s
  | c :: cs => apiCheckRun threshold (apiCheckStep threshold s c.1 c.2) cs

/-! ## RemediationReconciler -/

/-- The persisted `SelfNodeRemediation` custom resource as the reconciler
sees it: spec field `remediationStrategy`
(`src/api/v1alpha1/selfnoderemediation_types.go` lines 37-43) and status
fields `timeAssumedRebooted`, `phase`, `lastError` (lines 46-61). -/
structure SnrResource where
  remediationStrategy : String
  timeAssumedRebooted : Option Nat
  phase : Option String
  lastError : String
  deriving Repr, DecidableEq

/-- The slice of cluster state the reconciler reads and writes for the
target node: the resource (absent once deleted), the node's unschedulable
mark, and the counts of still-existing deletable pods and
volume-attachment objects bound to the node. -/
structure ClusterState where
  resource : Option SnrResource
  nodeUnschedulable : Bool
  nodePods : Nat
  nodeVolumeAttachments : Nat
  now : Nat
  deriving Repr, DecidableEq

/-- What one reconcile pass did: the resulting cluster state, how many
deletion calls it issued, and the delay it requeued with (none means no
delayed requeue was needed). -/
structure ReconcileResult where
  state : ClusterState
  deletionsPerformed : Nat
  requeueAfter : Option Nat
  deriving Repr, DecidableEq

/-- Modelled from the spec: the body of `SelfNodeRemediationReconciler`
(`controllers`) is not in the snapshot; spec section 4.5 gives the
behaviour, and the doc comment on `RemediationStrategy`
(`src/api/v1alpha1/selfnoderemediation_types.go` line 39) states that
resource deletion "will always happen, regardless of which strategy is
selected". On deletion of the request the node is un-cordoned. On first
observation with no `timeAssumedRebooted` it is computed via the
safe-time calculator and persisted, and the node is marked unschedulable.
With `timeAssumedRebooted` set it is never changed; the node stays
cordoned, the node's pods and volume attachments are deleted (already-gone
resources are not deletion calls), and until `now ≥ timeAssumedRebooted`
the pass requeues with exactly the remaining wait. -/
def reconcile (timeToAssumeRebooted : Nat) (s : ClusterState) : ReconcileResult :=
  match s.resource with
  | none =>
    { state := { s with nodeUnschedulable := false },
      deletionsPerformed := 0,
      requeueAfter := none }
  | some r =>
    match r.timeAssumedRebooted with
    | none =>
      let r' := { r with timeAssumedRebooted := some (s.now + timeToAssumeRebooted) }
      { state := { s with resource := some r', nodeUnschedulable := true },
        deletionsPerformed := 0,
        requeueAfter := some 0 }
    | some t =>
      let d := s.nodePods + s.nodeVolumeAttachments
      let s' := { s with nodeUnschedulable := true, nodePods := 0, nodeVolumeAttachments := 0 }
      if s.now < t then
        { state := s', deletionsPerformed := d, requeueAfter := some (t - s.now) }
      else
        { state := s', deletionsPerformed := d, requeueAfter := none }

/-- Concrete cluster state with the deprecated `NodeDeletion` strategy
selected, `timeAssumedRebooted` already set and elapsed, and two pods plus
one volume attachment still bound to the unhealthy node. -/
def nodeDeletionCluster : ClusterState :=
  { resource := some { remediationStrategy := DeprecatedNodeDeletionRemediationStrategy,
                       timeAssumedRebooted := some 0,
                       phase := none,
                       lastError := "" },
    nodeUnschedulable := true,
    nodePods := 2,
    nodeVolumeAttachments := 1,
    now := 5 }

/-! ## Claim theorems -/

/-- C1: for every configuration, the SafeTimeCalculator result equals
`(maxErrorsThreshold * checkInterval) + watchdogTimeout + safetyMargin`
(it is a pure function of the configuration, independent of
`apiServerTimeout`), and the test suite's step-by-step computation with
its hard-coded 5-second margin agrees with the calculator. -/
theorem C1_safe_time_formula (c : SafeTimeConfig) :
    calcTimeToAssumeRebooted c
      = c.maxErrorsThreshold * c.checkInterval + c.watchdogTimeout + c.safetyMargin ∧
    (∀ apiTimeout : Nat, calcTimeToAssumeRebooted { c with apiServerTimeout := apiTimeout }
      = calcTimeToAssumeRebooted c) ∧
    (∀ m i w : Nat, suiteTestTimeToAssumeNodeRebooted m i w
      = calcTimeToAssumeRebooted ⟨i, m, w, 0, 5 * second⟩) :=
  ⟨rfl, fun _ => rfl, fun _ _ _ => rfl⟩

/-- C2: in every cycle of the ApiConnectivityCheck state machine whose
resulting error count is below the configured threshold, the reboot
counter is unchanged (`Rebooter.Reboot()` is not invoked); in particular,
with a threshold of at least two, a single failed probe from the initial
state leaves the machine out of `Fencing` with no reboot invoked. -/
theorem C2_below_threshold_no_reboot (threshold : Nat) (s : ApiCheckState)
    (probe : ProbeOutcome) (verdict : HealthCheckResult) :
    ((apiCheckStep threshold s probe verdict).errorCount < threshold →
      (apiCheckStep threshold s probe verdict).reboots = s.reboots) ∧
    (2 ≤ threshold →
      (apiCheckStep threshold .initial .failure verdict).phase ≠ ApiCheckPhase.Fencing ∧
      (apiCheckStep threshold .initial .failure verdict).reboots = 0) := by
  constructor
  · intro h
    rcases s with ⟨ph, ec, pq, rb⟩
    cases ph <;> cases probe <;> cases verdict <;>
      simp only [apiCheckStep] at h ⊢ <;>
      split at h <;> simp_all
  · intro h
    have h1 : 0 + 1 < threshold := by omega
    cases verdict <;>
      simp only [apiCheckStep, ApiCheckState.initial, if_pos h1] <;> simp

/-- C2 witness: with threshold 3, a single failed probe from the initial
state ends with error count 1 < 3, no reboot, and phase not `Fencing`. -/
theorem C2_witness :
    (apiCheckStep 3 .initial .failure .Unhealthy).reboots = ApiCheckState.initial.reboots ∧
    (apiCheckStep 3 .initial .failure .Unhealthy).phase ≠ ApiCheckPhase.Fencing :=
  ⟨(C2_below_threshold_no_reboot 3 .initial .failure .Unhealthy).1 (by decide),
   ((C2_below_threshold_no_reboot 3 .initial .failure .Unhealthy).2 (by decide)).1⟩

/-- C3: if at least one queried peer used its own working API-server access
to report the requesting node unhealthy, the quorum verdict is `Unhealthy`,
regardless of all other peers' responses. -/
theorem C3_authoritative_unhealthy (responses : List PeerResponse)
    (h : PeerResponse.ConfirmsUnhealthy ∈ responses) :
    peersIsHealthy responses = HealthCheckResult.Unhealthy := by
  simp [peersIsHealthy, h]

/-- C3 witness: one `ConfirmsUnhealthy` answer among a healthy answer, a
silent peer and an API-outage answer yields `Unhealthy`. -/
theorem C3_witness :
    peersIsHealthy [.ConfirmsHealthy, .NoResponse,
      .ApiServerUnreachableFromPeerToo, .ConfirmsUnhealthy] = HealthCheckResult.Unhealthy :=
  C3_authoritative_unhealthy _ (by decide)

/-- C4: in a round where some peer responds but every responding peer
reports that it cannot reach the API server itself, the quorum verdict is
`ApiServerUnreachable` and not `Unhealthy`, and feeding that verdict into
any cycle of the ApiConnectivityCheck machine leaves the reboot counter
unchanged. -/
theorem C4_cluster_wide_outage (responses : List PeerResponse)
    (hresp : ∃ r ∈ responses, r.responded = true)
    (hall : ∀ r ∈ responses, r.responded = true →
      r = PeerResponse.ApiServerUnreachableFromPeerToo) :
    peersIsHealthy responses = HealthCheckResult.ApiServerUnreachable ∧
    peersIsHealthy responses ≠ HealthCheckResult.Unhealthy ∧
    (∀ (threshold : Nat) (s : ApiCheckState) (probe : ProbeOutcome),
      (apiCheckStep threshold s probe (peersIsHealthy responses)).reboots = s.reboots) := by
  have hnu : PeerResponse.ConfirmsUnhealthy ∉ responses := by
    intro hmem
    have := hall _ hmem (by rfl)
    simp [PeerResponse.responded] at this
  have hv : peersIsHealthy responses = HealthCheckResult.ApiServerUnreachable := by
    simp only [peersIsHealthy, if_neg hnu]
    exact if_pos ⟨hresp, hall⟩
  refine ⟨hv, by simp [hv], ?_⟩
  intro threshold s probe
  rw [hv]
  rcases s with ⟨ph, ec, pq, rb⟩
  cases ph <;> cases probe <;> simp only [apiCheckStep] <;> split <;> simp

/-- C4 witness: two silent peers and one API-outage answer yield
`ApiServerUnreachable`, which never advances the reboot counter. -/
theorem C4_witness :
    peersIsHealthy [.NoResponse, .ApiServerUnreachableFromPeerToo, .NoResponse]
      = HealthCheckResult.ApiServerUnreachable ∧
    (apiCheckStep 3 ⟨.Escalated, 7, 4, 0⟩ .failure
      (peersIsHealthy [.NoResponse, .ApiServerUnreachableFromPeerToo, .NoResponse])).reboots = 0 :=
  ⟨(C4_cluster_wide_outage _ (by decide) (by decide)).1,
   (C4_cluster_wide_outage _ (by decide) (by decide)).2.2 3 ⟨.Escalated, 7, 4, 0⟩ .failure⟩

/-- C5: once `timeAssumedRebooted` is set on the resource, a reconcile
pass leaves the resource (and hence that field) unchanged; and when the
node's workloads are already evicted, reconciling performs no deletions,
and reconciling again on the result performs no deletions either and
still leaves the resource unchanged. -/
theorem C5_tar_immutable_idempotent (tts : Nat) (s : ClusterState) (r : SnrResource) (t : Nat)
    (hres : s.resource = some r) (htar : r.timeAssumedRebooted = some t) :
    (reconcile tts s).state.resource = some r ∧
    (s.nodePods = 0 → s.nodeVolumeAttachments = 0 →
      (reconcile tts s).deletionsPerformed = 0 ∧
      (reconcile tts (reconcile tts s).state).deletionsPerformed = 0 ∧
      (reconcile tts (reconcile tts s).state).state.resource = some r) := by
  simp only [reconcile, hres, htar]
  constructor
  · split <;> rfl
  · intro hp hv
    simp only [hp, hv]
    split <;> simp [reconcile, htar] <;> split <;> simp

/-- C5 witness: a resource with `timeAssumedRebooted = 10` and no
workloads left reconciles with zero deletions twice and an unchanged
resource. -/
theorem C5_witness :
    (reconcile 7 ⟨some ⟨"ResourceDeletion", some 10, none, ""⟩, true, 0, 0, 4⟩).state.resource
      = some ⟨"ResourceDeletion", some 10, none, ""⟩ ∧
    (reconcile 7 ⟨some ⟨"ResourceDeletion", some 10, none, ""⟩, true, 0, 0, 4⟩).deletionsPerformed = 0 :=
  ⟨(C5_tar_immutable_idempotent 7 _ _ 10 rfl rfl).1,
   ((C5_tar_immutable_idempotent 7 _ _ 10 rfl rfl).2 rfl rfl).1⟩

/-- C6: with strategy `ResourceDeletion` and `timeAssumedRebooted` elapsed,
a reconcile pass keeps the node marked unschedulable and keeps the
resource in place; and on the state where the resource has been deleted,
the reconcile pass un-cordons the node (unschedulable becomes false). -/
theorem C6_cordon_until_deleted (tts : Nat) (s : ClusterState) (r : SnrResource) (t : Nat)
    (hres : s.resource = some r)
    ( _hstrat : r.remediationStrategy = ResourceDeletionRemediationStrategy)
    (htar : r.timeAssumedRebooted = some t)
    (helapsed : t ≤ s.now) :
    (reconcile tts s).state.nodeUnschedulable = true ∧
    (reconcile tts s).state.resource = some r ∧
    (reconcile tts { s with resource := none }).state.nodeUnschedulable = false := by
  have hlt : ¬ s.now < t := by omega
  simp [reconcile, hres, htar, hlt]

/-- C6 witness: with the safe time elapsed (`now = 12 ≥ 10`) the node
stays cordoned while the resource exists, and removing the resource
un-cordons it. -/
theorem C6_witness :
    (reconcile 7 ⟨some ⟨"ResourceDeletion", some 10, none, ""⟩, true, 0, 0, 12⟩).state.nodeUnschedulable = true ∧
    (reconcile 7 ⟨none, true, 0, 0, 12⟩).state.nodeUnschedulable = false :=
  ⟨(C6_cordon_until_deleted 7 _ _ 10 rfl rfl rfl (by decide)).1,
   (C6_cordon_until_deleted 7 ⟨some ⟨"ResourceDeletion", some 10, none, ""⟩, true, 0, 0, 12⟩
      _ 10 rfl rfl rfl (by decide)).2.2⟩

/-- C7: in a round where no peer responds within the per-call deadline,
the quorum verdict defaults to `Healthy`, never `Unhealthy`. -/
theorem C7_silence_defaults_healthy (responses : List PeerResponse)
    (h : ∀ r ∈ responses, r = PeerResponse.NoResponse) :
    peersIsHealthy responses = HealthCheckResult.Healthy := by
  have hnu : PeerResponse.ConfirmsUnhealthy ∉ responses := by
    intro hmem
    exact absurd (h _ hmem) (by decide)
  have hnr : ¬ ((∃ r ∈ responses, r.responded = true) ∧
      (∀ r ∈ responses, r.responded = true →
        r = PeerResponse.ApiServerUnreachableFromPeerToo)) := by
    rintro ⟨⟨r, hmem, hr⟩, -⟩
    rw [h _ hmem] at hr
    simp [PeerResponse.responded] at hr
  simp only [peersIsHealthy, if_neg hnu, if_neg hnr]

/-- C7 witness: three silent peers yield the `Healthy` default. -/
theorem C7_witness :
    peersIsHealthy [.NoResponse, .NoResponse, .NoResponse] = HealthCheckResult.Healthy :=
  C7_silence_defaults_healthy _ (by decide)

/-- C8: outside the terminal `Fencing` phase a failed probe increments the
error count by exactly one and a successful probe resets it to zero; with
threshold 3, running two failures then one success from the initial state
(whatever the peers would have answered each round) ends with error count
0, no peer query ever issued, and no reboot invoked. -/
theorem C8_error_count_dynamics (threshold : Nat) (s : ApiCheckState)
    (verdict : HealthCheckResult) (hph : s.phase ≠ ApiCheckPhase.Fencing) :
    (apiCheckStep threshold s .failure verdict).errorCount = s.errorCount + 1 ∧
    (apiCheckStep threshold s .success verdict).errorCount = 0 ∧
    (∀ v1 v2 v3 : HealthCheckResult,
      (apiCheckRun 3 .initial [(.failure, v1), (.failure, v2), (.success, v3)]).errorCount = 0 ∧
      (apiCheckRun 3 .initial [(.failure, v1), (.failure, v2), (.success, v3)]).peerQueries = 0 ∧
      (apiCheckRun 3 .initial [(.failure, v1), (.failure, v2), (.success, v3)]).reboots = 0) := by
  refine ⟨?_, ?_, ?_⟩
  · rcases s with ⟨ph, ec, pq, rb⟩
    cases ph <;> cases verdict <;> simp only [apiCheckStep] <;> first
      | (exact absurd rfl hph)
      | (split <;> simp)
  · rcases s with ⟨ph, ec, pq, rb⟩
    cases ph
    · rfl
    · rfl
    · exact absurd rfl hph
  · intro v1 v2 v3
    cases v1 <;> cases v2 <;> cases v3 <;> decide

/-- C8 witness: from the initial state (phase `Checking`, not `Fencing`),
with threshold 3, a failure moves the count to 1, a success resets it to
0, and the two-failures-then-success run ends at 0 with no peer query and
no reboot. -/
theorem C8_witness :
    (apiCheckStep 3 .initial .failure .Healthy).errorCount = ApiCheckState.initial.errorCount + 1 ∧
    (apiCheckStep 3 .initial .success .Healthy).errorCount = 0 ∧
    (apiCheckRun 3 .initial [(.failure, .Healthy), (.failure, .Healthy), (.success, .Healthy)]).reboots = 0 :=
  ⟨(C8_error_count_dynamics 3 .initial .Healthy (by decide)).1,
   (C8_error_count_dynamics 3 .initial .Healthy (by decide)).2.1,
   ((C8_error_count_dynamics 3 .initial .Healthy (by decide)).2.2 .Healthy .Healthy .Healthy).2.2⟩

/-- C9 counterexample: the claim says strategy values other than
`ResourceDeletion` do not trigger pod and volume-attachment deletion, but
on a concrete state carrying the deprecated `NodeDeletion` strategy with
two pods and one volume attachment still present, the reconcile pass
performs three deletions. -/
theorem C9_counterexample :
    (nodeDeletionCluster.resource.map fun r => r.remediationStrategy)
      = some DeprecatedNodeDeletionRemediationStrategy ∧
    DeprecatedNodeDeletionRemediationStrategy ≠ ResourceDeletionRemediationStrategy ∧
    (reconcile 10 nodeDeletionCluster).deletionsPerformed = 3 := by
  refine ⟨rfl, by decide, rfl⟩

/-- C9 amended: pod and volume-attachment deletion for the target node is
performed regardless of the `remediationStrategy` value — once
`timeAssumedRebooted` is set, a reconcile pass deletes all remaining pods
and volume attachments of the node, and replacing the strategy by any
other string changes nothing about the deletions performed. -/
theorem C9_deletion_ignores_strategy (tts : Nat) (s : ClusterState) (r : SnrResource)
    (t : Nat) (strat : String)
    (hres : s.resource = some r) (htar : r.timeAssumedRebooted = some t) :
    (reconcile tts s).deletionsPerformed = s.nodePods + s.nodeVolumeAttachments ∧
    (reconcile tts { s with resource := some { r with remediationStrategy := strat } }).deletionsPerformed
      = (reconcile tts s).deletionsPerformed := by
  simp only [reconcile, hres, htar]
  constructor
  · split <;> rfl
  · split <;> rfl

/-- C9 amended witness: on the concrete `NodeDeletion` state, deletions
equal the 2 pods plus 1 volume attachment, and switching the strategy
string leaves that count unchanged. -/
theorem C9_amended_witness :
    (reconcile 10 nodeDeletionCluster).deletionsPerformed
      = nodeDeletionCluster.nodePods + nodeDeletionCluster.nodeVolumeAttachments :=
  (C9_deletion_ignores_strategy 10 nodeDeletionCluster _ 0 "ResourceDeletion" rfl rfl).1

/-- C10: a spec created without an explicit strategy defaults to
`ResourceDeletion` (the kubebuilder default marker), and under the
deprecated `NodeDeletion` strategy the reconcile pass still performs the
resource deletion (all remaining pods and volume attachments of the
node). -/
theorem C10_default_and_deprecated (tts : Nat) (s : ClusterState) (r : SnrResource) (t : Nat)
    (hres : s.resource = some r)
    ( _hstrat : r.remediationStrategy = DeprecatedNodeDeletionRemediationStrategy)
    (htar : r.timeAssumedRebooted = some t) :
    defaultedRemediationStrategy none = ResourceDeletionRemediationStrategy ∧
    (reconcile tts s).deletionsPerformed = s.nodePods + s.nodeVolumeAttachments ∧
    (reconcile tts s).state.nodePods = 0 ∧
    (reconcile tts s).state.nodeVolumeAttachments = 0 := by
  refine ⟨rfl, ?_⟩
  simp only [reconcile, hres, htar]
  split <;> simp

/-- C10 witness: the concrete `NodeDeletion` state gets its 3 remaining
objects deleted, leaving none bound to the node. -/
theorem C10_witness :
    defaultedRemediationStrategy none = ResourceDeletionRemediationStrategy ∧
    (reconcile 10 nodeDeletionCluster).deletionsPerformed = 3 :=
  ⟨(C10_default_and_deprecated 10 nodeDeletionCluster _ 0 rfl rfl rfl).1,
   (C10_default_and_deprecated 10 nodeDeletionCluster _ 0 rfl rfl rfl).2.1⟩

end SelfNodeRemediation
